import Mathlib

/-!
Verification of `ofstd/include/dcmtk/ofstd/ofexport.h` (DCMTK).

The header is a compile-time decision procedure built from nested
preprocessor conditionals.  We embed it as a pure function from the four
configuration flags (`DCMTK_SHARED`, `_WIN32`, `HAVE_HIDDEN_VISIBILITY`,
`DCMTK_STATIC_FOR_SHARED`) to the token each of the two macros
(`DCMTK_DECL_EXPORT`, `DCMTK_DECL_IMPORT`) expands to.
-/

namespace Ofexport

/-- The four preprocessor flags that the header inspects.  Each is either
defined (`true`) or undefined (`false`) for a given compilation. -/
structure Config where
  dcmtk_shared : Bool
  win32 : Bool
  have_hidden_visibility : Bool
  dcmtk_static_for_shared : Bool
deriving DecidableEq, Repr

/-- The tokens a macro can expand to:
`dllExport` is `__declspec(dllexport)`,
`dllImport` is `__declspec(dllimport)`,
`defaultVisibility` is the GCC attribute restoring default visibility,
`empty` is the empty expansion. -/
inductive Marker where
  | dllExport
  | dllImport
  | defaultVisibility
  | empty
deriving DecidableEq, Repr

/-- Lines 28-42 of `ofexport.h`: the conditional block that may define
`DCMTK_DECL_EXPORT`.  `none` means the block leaves the macro undefined. -/
def declExportBlock (c : Config) : Option Marker :=
  if c.dcmtk_shared then
    if c.win32 then
      some Marker.dllExport
    else if c.have_hidden_visibility then
      some Marker.defaultVisibility
    else
      none
  else
    none

/-- Lines 28-42 of `ofexport.h`: the conditional block that may define
`DCMTK_DECL_IMPORT`.  It is defined only on the Windows path, and only when
`DCMTK_STATIC_FOR_SHARED` is not defined (line 33). -/
def declImportBlock (c : Config) : Option Marker :=
  if c.dcmtk_shared then
    if c.win32 then
      if c.dcmtk_static_for_shared then
        none
      else
        some Marker.dllImport
    else
      none
  else
    none

/-- Final expansion of `DCMTK_DECL_EXPORT`: lines 44-46 define it as empty
whenever the conditional block above left it undefined. -/
def DCMTK_DECL_EXPORT (c : Config) : Marker :=
  (declExportBlock c).getD Marker.empty

/-- Final expansion of `DCMTK_DECL_IMPORT`: lines 48-50 define it as empty
whenever the conditional block above left it undefined. -/
def DCMTK_DECL_IMPORT (c : Config) : Marker :=
  (declImportBlock c).getD Marker.empty

end Ofexport

open Ofexport

/-- C1: in a shared build on Windows (`DCMTK_SHARED` and `_WIN32` set),
`DCMTK_DECL_IMPORT` is `__declspec(dllimport)` when `DCMTK_STATIC_FOR_SHARED`
is unset, and empty when that flag is set. -/
theorem C1_import_on_windows (c : Config)
    (hs : c.dcmtk_shared = true) (hw : c.win32 = true) :
    (c.dcmtk_static_for_shared = false →
      DCMTK_DECL_IMPORT c = Marker.dllImport) ∧
    (c.dcmtk_static_for_shared = true →
      DCMTK_DECL_IMPORT c = Marker.empty) := by
  cases c
  simp_all [DCMTK_DECL_IMPORT, declImportBlock]

theorem C1_import_on_windows_witness :
    (DCMTK_DECL_IMPORT ⟨true, true, false, false⟩ = Marker.dllImport) ∧
    (DCMTK_DECL_IMPORT ⟨true, true, false, true⟩ = Marker.empty) :=
  ⟨(C1_import_on_windows ⟨true, true, false, false⟩ rfl rfl).1 rfl,
   (C1_import_on_windows ⟨true, true, false, true⟩ rfl rfl).2 rfl⟩

/-- C2: the resolution mapping is total: for every combination of the four
flags, both macros end up defined with exactly one value — the export macro
one of the dll-export marker, the default-visibility marker or empty,
the import macro one of the dll-import marker or empty — and whenever the
conditional block leaves a macro undefined, the fallback makes it empty. -/
theorem C2_totality (s w h f : Bool) :
    (DCMTK_DECL_EXPORT ⟨s, w, h, f⟩ = Marker.dllExport ∨
     DCMTK_DECL_EXPORT ⟨s, w, h, f⟩ = Marker.defaultVisibility ∨
     DCMTK_DECL_EXPORT ⟨s, w, h, f⟩ = Marker.empty) ∧
    (DCMTK_DECL_IMPORT ⟨s, w, h, f⟩ = Marker.dllImport ∨
     DCMTK_DECL_IMPORT ⟨s, w, h, f⟩ = Marker.empty) ∧
    (declExportBlock ⟨s, w, h, f⟩ = none →
      DCMTK_DECL_EXPORT ⟨s, w, h, f⟩ = Marker.empty) ∧
    (declImportBlock ⟨s, w, h, f⟩ = none →
      DCMTK_DECL_IMPORT ⟨s, w, h, f⟩ = Marker.empty) := by
  cases s <;> cases w <;> cases h <;> cases f <;> decide

theorem C2_totality_witness :
    (DCMTK_DECL_EXPORT ⟨false, false, false, false⟩ = Marker.dllExport ∨
     DCMTK_DECL_EXPORT ⟨false, false, false, false⟩ = Marker.defaultVisibility ∨
     DCMTK_DECL_EXPORT ⟨false, false, false, false⟩ = Marker.empty) ∧
    (DCMTK_DECL_IMPORT ⟨false, false, false, false⟩ = Marker.dllImport ∨
     DCMTK_DECL_IMPORT ⟨false, false, false, false⟩ = Marker.empty) ∧
    (declExportBlock ⟨false, false, false, false⟩ = none →
      DCMTK_DECL_EXPORT ⟨false, false, false, false⟩ = Marker.empty) ∧
    (declImportBlock ⟨false, false, false, false⟩ = none →
      DCMTK_DECL_IMPORT ⟨false, false, false, false⟩ = Marker.empty) :=
  C2_totality false false false false

/-- C3: in a static build (`DCMTK_SHARED` unset) both macros are empty,
whatever the values of the other three flags. -/
theorem C3_static_build_empty (c : Config) (hs : c.dcmtk_shared = false) :
    DCMTK_DECL_EXPORT c = Marker.empty ∧
    DCMTK_DECL_IMPORT c = Marker.empty := by
  cases c
  simp_all [DCMTK_DECL_EXPORT, DCMTK_DECL_IMPORT, declExportBlock,
    declImportBlock]

theorem C3_static_build_empty_witness :
    DCMTK_DECL_EXPORT ⟨false, true, true, true⟩ = Marker.empty ∧
    DCMTK_DECL_IMPORT ⟨false, true, true, true⟩ = Marker.empty :=
  C3_static_build_empty ⟨false, true, true, true⟩ rfl

/-- C4: in a shared build on Windows (`DCMTK_SHARED` and `_WIN32` set),
`DCMTK_DECL_EXPORT` is `__declspec(dllexport)`. -/
theorem C4_export_on_windows (c : Config)
    (hs : c.dcmtk_shared = true) (hw : c.win32 = true) :
    DCMTK_DECL_EXPORT c = Marker.dllExport := by
  cases c
  simp_all [DCMTK_DECL_EXPORT, declExportBlock]

theorem C4_export_on_windows_witness :
    DCMTK_DECL_EXPORT ⟨true, true, false, false⟩ = Marker.dllExport :=
  C4_export_on_windows ⟨true, true, false, false⟩ rfl rfl

/-- C5: in a shared build on a POSIX platform (`DCMTK_SHARED` set, `_WIN32`
unset), `DCMTK_DECL_EXPORT` is the default-visibility attribute when
`HAVE_HIDDEN_VISIBILITY` is set and empty when it is unset. -/
theorem C5_export_on_posix (c : Config)
    (hs : c.dcmtk_shared = true) (hw : c.win32 = false) :
    (c.have_hidden_visibility = true →
      DCMTK_DECL_EXPORT c = Marker.defaultVisibility) ∧
    (c.have_hidden_visibility = false →
      DCMTK_DECL_EXPORT c = Marker.empty) := by
  cases c
  simp_all [DCMTK_DECL_EXPORT, declExportBlock]

theorem C5_export_on_posix_witness :
    (DCMTK_DECL_EXPORT ⟨true, false, true, false⟩ = Marker.defaultVisibility) ∧
    (DCMTK_DECL_EXPORT ⟨true, false, false, false⟩ = Marker.empty) :=
  ⟨(C5_export_on_posix ⟨true, false, true, false⟩ rfl rfl).1 rfl,
   (C5_export_on_posix ⟨true, false, false, false⟩ rfl rfl).2 rfl⟩

/-- C6: in a shared build on every non-Windows platform (`DCMTK_SHARED` set,
`_WIN32` unset), `DCMTK_DECL_IMPORT` is empty, regardless of
`HAVE_HIDDEN_VISIBILITY` and `DCMTK_STATIC_FOR_SHARED`. -/
theorem C6_import_on_posix (c : Config)
    (hs : c.dcmtk_shared = true) (hw : c.win32 = false) :
    DCMTK_DECL_IMPORT c = Marker.empty := by
  cases c
  simp_all [DCMTK_DECL_IMPORT, declImportBlock]

theorem C6_import_on_posix_witness :
    DCMTK_DECL_IMPORT ⟨true, false, true, true⟩ = Marker.empty :=
  C6_import_on_posix ⟨true, false, true, true⟩ rfl rfl

/-- C7: resolution is deterministic: two evaluations whose four flags agree
component-wise give identical values for both macros. -/
theorem C7_deterministic (c₁ c₂ : Config)
    (hs : c₁.dcmtk_shared = c₂.dcmtk_shared)
    (hw : c₁.win32 = c₂.win32)
    (hh : c₁.have_hidden_visibility = c₂.have_hidden_visibility)
    (hf : c₁.dcmtk_static_for_shared = c₂.dcmtk_static_for_shared) :
    DCMTK_DECL_EXPORT c₁ = DCMTK_DECL_EXPORT c₂ ∧
    DCMTK_DECL_IMPORT c₁ = DCMTK_DECL_IMPORT c₂ := by
  cases c₁
  cases c₂
  simp_all

theorem C7_deterministic_witness :
    DCMTK_DECL_EXPORT ⟨true, true, false, false⟩ =
      DCMTK_DECL_EXPORT ⟨true, true, false, false⟩ ∧
    DCMTK_DECL_IMPORT ⟨true, true, false, false⟩ =
      DCMTK_DECL_IMPORT ⟨true, true, false, false⟩ :=
  C7_deterministic ⟨true, true, false, false⟩ ⟨true, true, false, false⟩
    rfl rfl rfl rfl

/-- C8: Windows branch precedence: in a shared build with both `_WIN32` and
`HAVE_HIDDEN_VISIBILITY` set, the export macro is the dll-export marker and
never the default-visibility marker; and in general the export macro is the
default-visibility marker only when `_WIN32` is unset. -/
theorem C8_windows_precedence (s w h f : Bool) :
    (s = true → w = true →
      DCMTK_DECL_EXPORT ⟨s, w, h, f⟩ = Marker.dllExport ∧
      DCMTK_DECL_EXPORT ⟨s, w, h, f⟩ ≠ Marker.defaultVisibility) ∧
    (DCMTK_DECL_EXPORT ⟨s, w, h, f⟩ = Marker.defaultVisibility →
      w = false) := by
  cases s <;> cases w <;> cases h <;> cases f <;> decide

theorem C8_windows_precedence_witness :
    (true = true → true = true →
      DCMTK_DECL_EXPORT ⟨true, true, true, false⟩ = Marker.dllExport ∧
      DCMTK_DECL_EXPORT ⟨true, true, true, false⟩ ≠
        Marker.defaultVisibility) ∧
    (DCMTK_DECL_EXPORT ⟨true, true, true, false⟩ =
        Marker.defaultVisibility → true = false) :=
  C8_windows_precedence true true true false

/-- C9: frame of the re-export flag: changing `DCMTK_STATIC_FOR_SHARED`
never changes the export macro, and it can change the import macro only when
both `DCMTK_SHARED` and `_WIN32` are set; in a static build or on a
non-Windows platform both macros are unchanged by it. -/
theorem C9_frame_of_static_for_shared (s w h f₁ f₂ : Bool) :
    DCMTK_DECL_EXPORT ⟨s, w, h, f₁⟩ = DCMTK_DECL_EXPORT ⟨s, w, h, f₂⟩ ∧
    (DCMTK_DECL_IMPORT ⟨s, w, h, f₁⟩ ≠ DCMTK_DECL_IMPORT ⟨s, w, h, f₂⟩ →
      s = true ∧ w = true) := by
  cases s <;> cases w <;> cases h <;> cases f₁ <;> cases f₂ <;> decide

theorem C9_frame_of_static_for_shared_witness :
    DCMTK_DECL_EXPORT ⟨false, true, true, false⟩ =
      DCMTK_DECL_EXPORT ⟨false, true, true, true⟩ ∧
    (DCMTK_DECL_IMPORT ⟨false, true, true, false⟩ ≠
        DCMTK_DECL_IMPORT ⟨false, true, true, true⟩ →
      false = true ∧ true = true) :=
  C9_frame_of_static_for_shared false true true false true

/-- C10: range invariant of the import macro: for every flag combination,
`DCMTK_DECL_IMPORT` is either the dll-import marker or empty — never the
default-visibility marker — and `HAVE_HIDDEN_VISIBILITY` never influences
it. -/
theorem C10_import_range (s w h₁ h₂ f : Bool) :
    (DCMTK_DECL_IMPORT ⟨s, w, h₁, f⟩ = Marker.dllImport ∨
     DCMTK_DECL_IMPORT ⟨s, w, h₁, f⟩ = Marker.empty) ∧
    DCMTK_DECL_IMPORT ⟨s, w, h₁, f⟩ ≠ Marker.defaultVisibility ∧
    DCMTK_DECL_IMPORT ⟨s, w, h₁, f⟩ = DCMTK_DECL_IMPORT ⟨s, w, h₂, f⟩ := by
  cases s <;> cases w <;> cases h₁ <;> cases h₂ <;> cases f <;> decide

theorem C10_import_range_witness :
    (DCMTK_DECL_IMPORT ⟨true, true, false, false⟩ = Marker.dllImport ∨
     DCMTK_DECL_IMPORT ⟨true, true, false, false⟩ = Marker.empty) ∧
    DCMTK_DECL_IMPORT ⟨true, true, false, false⟩ ≠
      Marker.defaultVisibility ∧
    DCMTK_DECL_IMPORT ⟨true, true, false, false⟩ =
      DCMTK_DECL_IMPORT ⟨true, true, true, false⟩ :=
  C10_import_range true true false true false
